import Mathlib

/-!
Verification development for the `pueo` repository (Tauri app, `src-tauri/src`).

The embedding below follows the three source files:
  - `lib.rs`        : the `stream_chat` command — history assembly from the
                      role-tagged message log, the streaming event loop that
                      republishes provider stream items as window events, and
                      the surrounding command plumbing (client check, model
                      name default, completion marker);
  - `game_builder.rs`: the `generate_phaser_game` tool (`PhaserGameTool::call`)
                      and its argument types;
  - `db.rs`         : the game record store (`Database::get_game`,
                      `Database::update_game`).

External collaborators (the `rig` provider stream, `tauri::Window::emit`,
`serde_json`, SQLite, wall-clock time) are modelled as explicit inputs or as
plain data: the provider stream is a list of `Except String MultiTurnStreamItem`
values handed to the loop, the sink always delivers (events are collected into
a list), serialization is a concrete string rendering, and `Utc::now()` is a
`Nat` parameter.
-/

/- ===========================  lib.rs : data  =========================== -/

/-- `ChatMessage` from `lib.rs`: `{id, role, content}`, all strings. -/
structure ChatMessage where
  id : String
  role : String
  content : String
deriving Repr, DecidableEq

/-- The fixed base system prompt returned by `get_system_prompt()` in
`game_builder.rs`. In the source it is one long static markdown literal
beginning with the line kept here. No code path and no claim ever inspects
its text — `stream_chat` only appends system-role message contents after it —
so the literal is abbreviated to its first line; every theorem below treats
it purely as an arbitrary fixed string. -/
def get_system_prompt : String := "# Phaser Game Builder Agent"

/-- `rig::completion::Message` values as produced by `Message::user` and
`Message::assistant` inside `stream_chat`'s history-building loop. -/
inductive RigMessage where
  | user (content : String)
  | assistant (content : String)
deriving Repr, DecidableEq

/-- The history-builder state threaded through `stream_chat`'s first loop
(`lib.rs` lines 70–94): the growing system prompt, the provider-ready
history, and the `last_user_message` slot. -/
structure HistState where
  systemPrompt : String
  history : List RigMessage
  lastUser : String
deriving Repr, DecidableEq

/-- One iteration of the history-building `for` loop in `stream_chat`
(`lib.rs` lines 75–94):
  - `"system"`   : append `"\n"` then the content to the system prompt;
  - `"user"`     : overwrite `last_user_message` with the content;
  - `"assistant"`: if `last_user_message` is non-empty, push
    `Message::user(last_user_message)` and clear the slot; then always push
    `Message::assistant(content)` (the source guard is
    `!last_user_message.is_empty()`; here the two branches are written with
    the empty case first);
  - any other role: `Err(format!("Unknown role: {}", role))`. -/
def buildStep (st : HistState) (m : ChatMessage) : Except String HistState :=
  if m.role == "system" then
    Except.ok { st with systemPrompt := st.systemPrompt ++ "\n" ++ m.content }
  else if m.role == "user" then
    Except.ok { st with lastUser := m.content }
  else if m.role == "assistant" then
    if st.lastUser == "" then
      Except.ok { st with history := st.history ++ [RigMessage.assistant m.content] }
    else
      Except.ok { st with
        history := st.history ++ [RigMessage.user st.lastUser, RigMessage.assistant m.content],
        lastUser := "" }
  else
    Except.error ("Unknown role: " ++ m.role)

/-- Fold `buildStep` over a message log from a given starting state,
stopping at the first error (the source loop `return`s the error). -/
def buildHistoryFrom (st : HistState) : List ChatMessage → Except String HistState
  | [] => Except.ok st
  | m :: rest =>
    match buildStep st m with
    | Except.ok st' => buildHistoryFrom st' rest
    | Except.error e => Except.error e

/-- The whole history-building pass of `stream_chat`: start from
`get_system_prompt()`, empty history, empty `last_user_message`. -/
def buildHistory (msgs : List ChatMessage) : Except String HistState :=
  buildHistoryFrom ⟨get_system_prompt, [], ""⟩ msgs

/-- The model-name default of `stream_chat` (`lib.rs` line 68). -/
def modelName (model : Option String) : String :=
  model.getD "claude-sonnet-4-5-20250929"

/-- How the provider stream call is opened (`lib.rs` lines 105–111):
`stream_prompt(last_user_message)` when the assembled history is empty,
`stream_chat(last_user_message, history)` otherwise. -/
inductive CallMode where
  | prompt (user : String)
  | chat (user : String) (history : List RigMessage)
deriving Repr, DecidableEq

/-- The `if history.is_empty() { stream_prompt(..) } else { stream_chat(..) }`
choice in `stream_chat`. -/
def initialCallMode (hs : HistState) : CallMode :=
  if hs.history.isEmpty then CallMode.prompt hs.lastUser
  else CallMode.chat hs.lastUser hs.history

/-- The depth constant passed to `.multi_turn(5)` in both branches of
`stream_chat` (`lib.rs` lines 107 and 110). -/
def multiTurnMaxDepth : Nat := 5

/-- `rig::streaming::StreamedAssistantContent` as matched by `stream_chat`:
text fragments, tool-call requests, and a catch-all for the variants the
source ignores with `_ => ()` (`lib.rs` line 143). Tool-call arguments are a
JSON value in the source, carried here as an uninterpreted string. -/
inductive StreamedAssistantContent where
  | text (t : String)
  | toolCall (name : String) (arguments : String)
  | otherAssistant
deriving Repr, DecidableEq

/-- `rig::streaming::StreamedUserContent` as matched by `stream_chat`: the
only variant the source handles is `ToolResult` (`lib.rs` lines 147–162). -/
inductive StreamedUserContent where
  | toolResult (content : String)
deriving Repr, DecidableEq

/-- `rig::agent::MultiTurnStreamItem` as matched by `stream_chat`, with a
catch-all for the variants ignored by `_ => ()` (`lib.rs` line 170). -/
inductive MultiTurnStreamItem where
  | streamAssistantItem (item : StreamedAssistantContent)
  | streamUserItem (item : StreamedUserContent)
  | finalResponse (response : String)
  | otherItem
deriving Repr, DecidableEq

/-- The window events `stream_chat` emits, one constructor per event name:
`chat-token`, `tool-call`, `tool-result`, `chat-new-turn`,
`chat-final-response`, `chat-error`, `chat-complete`. -/
inductive SinkEvent where
  | chatToken (t : String)
  | toolCall (name : String) (arguments : String)
  | toolResult (content : String)
  | chatNewTurn
  | chatFinalResponse (response : String)
  | chatError (message : String)
  | chatComplete
deriving Repr, DecidableEq

/-- The mutable loop state of `stream_chat`'s streaming loop
(`lib.rs` lines 114–115): `accumulated_response` and `has_received_text`. -/
structure LoopState where
  accumulated : String
  hasText : Bool
deriving Repr, DecidableEq

/-- One `Ok(chunk)` iteration of `stream_chat`'s streaming loop
(`lib.rs` lines 119–171): the updated loop state and the events emitted for
this chunk, in emission order.
  - `Text`         : set `has_received_text`, append to `accumulated_response`,
                     emit `chat-token`;
  - `ToolCall`     : emit `tool-call` (name and raw arguments), state unchanged;
  - `ToolResult`   : emit `tool-result` then `chat-new-turn`, and reset
                     `has_received_text` to `false` (the source resets only the
                     flag; `accumulated_response` is left as is);
  - `FinalResponse`: emit `chat-final-response`;
  - ignored variants: no event, state unchanged. -/
def processItem (st : LoopState) : MultiTurnStreamItem → LoopState × List SinkEvent
  | MultiTurnStreamItem.streamAssistantItem (StreamedAssistantContent.text t) =>
      ({ accumulated := st.accumulated ++ t, hasText := true }, [SinkEvent.chatToken t])
  | MultiTurnStreamItem.streamAssistantItem (StreamedAssistantContent.toolCall n a) =>
      (st, [SinkEvent.toolCall n a])
  | MultiTurnStreamItem.streamAssistantItem StreamedAssistantContent.otherAssistant =>
      (st, [])
  | MultiTurnStreamItem.streamUserItem (StreamedUserContent.toolResult c) =>
      ({ st with hasText := false }, [SinkEvent.toolResult c, SinkEvent.chatNewTurn])
  | MultiTurnStreamItem.finalResponse r =>
      (st, [SinkEvent.chatFinalResponse r])
  | MultiTurnStreamItem.otherItem =>
      (st, [])

/-- The whole `while let Some(result) = stream.next().await` loop of
`stream_chat` plus its aftermath (`lib.rs` lines 117–186), over the provider
stream given as a list of `Result` items. Returns the final loop state, the
emitted events in order, and the command's return value:
  - when the stream is exhausted, `chat-complete` is emitted and the command
    returns `Ok(())`;
  - on an `Err(e)` item, `chat-error` is emitted and the command returns
    `Err` immediately — nothing after the error is read and **no**
    `chat-complete` is emitted. -/
def processStream (st : LoopState) :
    List (Except String MultiTurnStreamItem) → LoopState × List SinkEvent × Except String Unit
  | [] => (st, [SinkEvent.chatComplete], Except.ok ())
  | Except.ok item :: rest =>
      let pe := processItem st item
      let r := processStream pe.1 rest
      (r.1, pe.2 ++ r.2.1, r.2.2)
  | Except.error e :: _ =>
      (st, [SinkEvent.chatError ("Stream error: " ++ e)],
       Except.error ("Stream error: " ++ e))

/-- The error-free portion of the streaming loop: fold `processItem` over a
list of `Ok` items, collecting the emitted events. Used to reason about runs
up to the point where an error or the end of the stream is reached. -/
def processOkItems (st : LoopState) : List MultiTurnStreamItem → LoopState × List SinkEvent
  | [] => (st, [])
  | item :: rest =>
      let pe := processItem st item
      let r := processOkItems pe.1 rest
      (r.1, pe.2 ++ r.2)

/-- The `stream_chat` command (`lib.rs` lines 55–187). The shared client
handle is modelled as `Option Unit` (only its presence matters), the
provider's response stream as an explicit input list. Returns the events
delivered to the window, in order, and the command's `Result`:
  - no client: fail at once with the `init_ai` message, no events, before
    history assembly or any provider interaction;
  - history assembly fails (unknown role): fail with that message, no events;
  - otherwise run the streaming loop from `("", false)`. -/
def stream_chat (client : Option Unit) (messages : List ChatMessage)
    (model : Option String) (stream : List (Except String MultiTurnStreamItem)) :
    List SinkEvent × Except String Unit :=
  match client with
  | none => ([], Except.error "AI client not initialized. Call init_ai first.")
  | some _ =>
    match buildHistory messages with
    | Except.error e => ([], Except.error e)
    | Except.ok hs =>
      let _mode := initialCallMode hs
      let _model := modelName model
      let r := processStream ⟨"", false⟩ stream
      (r.2.1, r.2.2)

/- ==================  lib.rs : spec-side reference defs  ================== -/

/-- Concatenation of a list of strings (used to state what the run-long
text accumulator and the system preamble contain). -/
def joinAll : List String → String
  | [] => ""
  | s :: l => s ++ joinAll l

/-- The contents of the system-role messages of a log, in order. -/
def systemContents : List ChatMessage → List String
  | [] => []
  | m :: rest =>
    if m.role == "system" then m.content :: systemContents rest
    else systemContents rest

/-- The preamble as the spec describes it: the fixed base prompt followed by
every system-role content, newline-joined (each content contributes
`"\n" ++ content` after the base, which is exactly newline-joining the base
with the contents). -/
def specPreamble (msgs : List ChatMessage) : String :=
  get_system_prompt ++ joinAll ((systemContents msgs).map (fun s => "\n" ++ s))

/-- The text fragments of a stream of items, in order (every `TextDelta`). -/
def textDeltas : List MultiTurnStreamItem → List String
  | [] => []
  | MultiTurnStreamItem.streamAssistantItem (StreamedAssistantContent.text t) :: rest =>
      t :: textDeltas rest
  | _ :: rest => textDeltas rest

/-- Reference History Builder, written from the spec's words (§4.1, §8):
a single in-order pass that keeps at most one pending user message —
user-role content overwrites the single pending slot (last-writer-wins) —
and assistant-role content with a pending user closes a `(user, assistant)`
pair with that nearest preceding unconsumed user message and clears the
slot. System-role content does not touch the pairing. State is the closed
pairs so far and the pending slot. -/
def specScanFrom (st : List (String × String) × Option String) :
    List ChatMessage → List (String × String) × Option String
  | [] => st
  | m :: rest =>
    if m.role == "user" then specScanFrom (st.1, some m.content) rest
    else if m.role == "assistant" then
      match st.2 with
      | some u => specScanFrom (st.1 ++ [(u, m.content)], none) rest
      | none => specScanFrom (st.1, none) rest
    else specScanFrom st rest

/-- Reference History Builder run from the empty state. -/
def specScan (msgs : List ChatMessage) : List (String × String) × Option String :=
  specScanFrom ([], none) msgs

/-- Flatten ordered `(user, assistant)` pairs into the provider-ready
message list shape that `stream_chat` builds. -/
def flattenPairs : List (String × String) → List RigMessage
  | [] => []
  | (u, a) :: ps => RigMessage.user u :: RigMessage.assistant a :: flattenPairs ps

/-- All roles of the log are among `system`, `user`, `assistant`. -/
def rolesOk : List ChatMessage → Bool
  | [] => true
  | m :: rest =>
    (m.role == "system" || m.role == "user" || m.role == "assistant") && rolesOk rest

/-- Every user-role message of the log has non-empty content. -/
def usersNonempty : List ChatMessage → Bool
  | [] => true
  | m :: rest => (m.role != "user" || m.content != "") && usersNonempty rest

/-- The spec's validity invariant (§3): every assistant message is preceded
by an unconsumed user message, checked against the reference pending slot. -/
def orderOk (pending : Option String) : List ChatMessage → Bool
  | [] => true
  | m :: rest =>
    if m.role == "user" then orderOk (some m.content) rest
    else if m.role == "assistant" then pending.isSome && orderOk none rest
    else orderOk pending rest

/-- Reading of the reference pending slot as the source's sentinel string. -/
def pendingStr (pending : Option String) : String := pending.getD ""

/- ==============  spec-modelled multi-turn depth loop (§4.4)  ============== -/

/-- One provider response turn as seen by the multi-turn loop: either a
terminal text answer or a request to run a tool. -/
inductive ProviderTurn where
  | finalText (t : String)
  | toolCall (name : String) (arguments : String)
deriving Repr, DecidableEq

/-- Modelled from the spec: the bounded tool-calling loop of §4.4, which in
the source is the external `rig` combinator `agent.stream_prompt(..)/
stream_chat(..).multi_turn(5)` — its body is not under `src/`; only the
depth constant `5` is (`lib.rs` lines 107 and 110, `multiTurnMaxDepth`).
Per the spec: `depth_remaining` is set at initialization; each tool
execution decrements it by exactly 1 and re-enters streaming while
`depth_remaining > 0`; when it reaches 0 a further tool call is forwarded
but **not** executed and the run stops after the provider's last chance to
answer. `depthTrace` records the value of `depth_remaining` at each tool
execution (before its decrement); its length is the number of tool
executions performed. -/
def depthTrace (depth : Nat) : List ProviderTurn → List Nat
  | [] => []
  | ProviderTurn.finalText _ :: _ => []
  | ProviderTurn.toolCall _ _ :: rest =>
    if depth = 0 then []
    else depth :: depthTrace (depth - 1) rest

/- =====================  game_builder.rs : data  ===================== -/

/-- `GameBuilderError` from `game_builder.rs`. -/
inductive GameBuilderError where
  | invalidConfiguration (msg : String)
  | serializationError (msg : String)
deriving Repr, DecidableEq

/-- `GravityConfig`: horizontal and vertical gravity (`f32` in the source). -/
structure GravityConfig where
  x : Float
  y : Float
deriving Repr

/-- `PhysicsConfig` from `game_builder.rs`. -/
structure PhysicsConfig where
  enabled : Bool
  gravity : GravityConfig
  debug : Bool
deriving Repr

/-- `GameConfig` from `game_builder.rs`. `width` and `height` are `u32` in
the source; the validation in `PhaserGameTool::call` only compares them with
`0`, so they are carried as `Nat` (no arithmetic is ever performed on them). -/
structure GameConfig where
  width : Nat
  height : Nat
  background_color : String
  physics : PhysicsConfig
deriving Repr

/-- `AssetType` from `game_builder.rs`. -/
inductive AssetType where
  | sprite
  | audio
  | image
deriving Repr, DecidableEq

/-- `Asset` from `game_builder.rs`. -/
structure Asset where
  key : String
  asset_type : AssetType
  url : String
deriving Repr, DecidableEq

/-- `GameObject` from `game_builder.rs`, abbreviated. In the source it is a
large record (id, object type, position, optional texture/shape/text/
physics/controls — the controls holding a recursive projectile template —
behavior and behavior parameters). No code path under verification and no
claim inspects anything inside a `GameObject` (the tool validation only
counts scenes and checks the canvas dimensions), so it is carried as an
atom identified by its `id` field. -/
structure GameObject where
  id : String
deriving Repr, DecidableEq

/-- `ActionEffect` from `game_builder.rs`. -/
inductive ActionEffect where
  | updateScore (points : Int)
  | gameOver
  | destroy
  | updateText (object_id : String) (text : String)
deriving Repr, DecidableEq

/-- `ActionDefinition` from `game_builder.rs`. -/
structure ActionDefinition where
  name : String
  effect : ActionEffect
deriving Repr, DecidableEq

/-- `PositionVariance` from `game_builder.rs` (`f32` fields). -/
structure PositionVariance where
  x_min : Float
  x_max : Float
  y_min : Option Float
  y_max : Option Float
deriving Repr

/-- `Spawner` from `game_builder.rs` (template abbreviated with
`GameObject`). -/
structure Spawner where
  id : String
  template : GameObject
  interval : Nat
  max_count : Option Nat
  spawn_area : String
  position_variance : Option PositionVariance
deriving Repr

/-- `CustomLogic` from `game_builder.rs`. -/
structure CustomLogic where
  on_collision : Option (List String)
  on_overlap : Option (List String)
  timers : Option (List String)
  spawners : Option (List Spawner)
  actions : Option (List ActionDefinition)
deriving Repr

/-- `Scene` from `game_builder.rs`. -/
structure Scene where
  name : String
  objects : List GameObject
  custom_logic : Option CustomLogic
deriving Repr

/-- `PhaserGameSpec` from `game_builder.rs`: the complete tool argument. -/
structure PhaserGameSpec where
  title : String
  description : String
  game : GameConfig
  assets : List Asset
  scenes : List Scene
  controls_description : List String
  key_concepts : List String
deriving Repr

/-- Model of `serde_json::to_string_pretty(&args)` for a `PhaserGameSpec`.
Serialization of this type cannot fail in the source; here it is a concrete
string rendering of the top-level fields (the exact JSON text is immaterial
to every claim — what matters is that the tool's success value is the
serialization of its argument). -/
def specToJson (s : PhaserGameSpec) : String :=
  "\x7b\"title\":\"" ++ s.title ++ "\",\"description\":\"" ++ s.description ++
  "\",\"game\":\x7b\"width\":" ++ toString s.game.width ++
  ",\"height\":" ++ toString s.game.height ++
  ",\"background_color\":\"" ++ s.game.background_color ++
  "\"\x7d,\"scenes\":[" ++
  joinAll ((s.scenes.map (fun sc => "\"" ++ sc.name ++ "\"")).intersperse ",") ++
  "]\x7d"

/-- The tool name constant `PhaserGameTool::NAME`. -/
def generatePhaserGameName : String := "generate_phaser_game"

namespace PhaserGameTool

/-- `PhaserGameTool::call` from `game_builder.rs` (lines 792–809): reject a
spec with no scenes, then reject zero canvas dimensions, otherwise succeed
with the spec serialized as JSON. -/
def call (args : PhaserGameSpec) : Except GameBuilderError String :=
  if args.scenes.isEmpty then
    Except.error (GameBuilderError.invalidConfiguration "Game must have at least one scene")
  else if args.game.width == 0 || args.game.height == 0 then
    Except.error (GameBuilderError.invalidConfiguration "Game dimensions must be greater than 0")
  else
    Except.ok (specToJson args)

end PhaserGameTool

/- =========================  db.rs : data  ========================= -/

/-- `DbError` from `db.rs`, restricted to the variants reachable in this
model: `NotFound`. (`Database`, `Serialization`, `DateTimeParse` and `Io`
wrap external failures of SQLite, serde and the filesystem, none of which
is modelled as able to fail.) -/
inductive DbError where
  | notFound (id : String)
deriving Repr

/-- `GameRecord` from `db.rs`, doubling as a row of the `games` table
(whose columns are exactly these fields, with the spec stored as
`spec_json`; the JSON round-trip through storage is modelled as identity).
Timestamps are `Nat` ticks standing for the RFC 3339 instants. -/
structure GameRecord where
  id : String
  title : String
  description : String
  spec : PhaserGameSpec
  created_at : Nat
  updated_at : Nat
  version : Int
deriving Repr

/-- A row of the `game_versions` table as inserted by `create_game` /
`update_game` (the autoincrement surrogate key is dropped: nothing under
verification reads it). -/
structure VersionRow where
  game_id : String
  version : Int
  spec : PhaserGameSpec
  created_at : Nat
  notes : Option String
deriving Repr

/-- The database state: the `games` table and the `game_versions` table. -/
structure DbState where
  games : List GameRecord
  versions : List VersionRow
deriving Repr

namespace Database

/-- `Database::get_game` from `db.rs` (lines 152–183): select the row with
the given id, or `NotFound`. -/
def get_game (db : DbState) (id : String) : Except DbError GameRecord :=
  match db.games.find? (fun r => r.id == id) with
  | some r => Except.ok r
  | none => Except.error (DbError.notFound id)

/-- The effect of `update_game`'s `UPDATE games SET title, description,
spec_json, updated_at, version WHERE id = ?` statement on the `games`
table: every row with the given id gets the new field values; `created_at`
is not in the SET list and is untouched. -/
def updateRow (spec : PhaserGameSpec) (now : Nat) (v : Int) (id : String)
    (r : GameRecord) : GameRecord :=
  if r.id == id then
    { r with title := spec.title, description := spec.description, spec := spec,
             updated_at := now, version := v }
  else r

/-- `Database::update_game` from `db.rs` (lines 186–239): read the current
record (propagating `NotFound`), compute `new_version = current.version + 1`,
run the UPDATE on the `games` table, insert a `game_versions` row, and
return a `GameRecord` built from the new spec, the **original** record's
`created_at`, the fresh `updated_at` and the new version. `Utc::now()` is
the explicit `now` parameter. -/
def update_game (db : DbState) (id : String) (spec : PhaserGameSpec)
    (notes : Option String) (now : Nat) :
    Except DbError (DbState × GameRecord) :=
  match get_game db id with
  | Except.error e => Except.error e
  | Except.ok current =>
    let newVersion := current.version + 1
    let games' := db.games.map (updateRow spec now newVersion id)
    let versions' := db.versions ++ [⟨id, newVersion, spec, now, notes⟩]
    Except.ok (⟨games', versions'⟩,
      { id := id, title := spec.title, description := spec.description,
        spec := spec, created_at := current.created_at, updated_at := now,
        version := newVersion })

end Database

/- ==================  concrete sample inputs (witness data)  ================== -/

/-- A well-formed 800×600 game spec with one scene. -/
def validGameSpec : PhaserGameSpec :=
  { title := "Dodger"
    description := "Dodge the falling blocks"
    game := { width := 800, height := 600, background_color := "#87CEEB"
              physics := { enabled := true, gravity := { x := 0.0, y := 300.0 }, debug := false } }
    assets := []
    scenes := [{ name := "main", objects := [{ id := "player" }], custom_logic := none }]
    controls_description := ["Arrow keys to move"]
    key_concepts := ["physics"] }

/-- The same spec with `width = 0` (Scenario D's invalid argument). -/
def width0GameSpec : PhaserGameSpec :=
  { validGameSpec with game := { validGameSpec.game with width := 0 } }

/-- A stored game record at version 3. -/
def sampleGame0 : GameRecord :=
  { id := "game_1", title := "Dodger", description := "Dodge the falling blocks"
    spec := validGameSpec, created_at := 10, updated_at := 20, version := 3 }

/-- A database holding exactly `sampleGame0`. -/
def sampleDb : DbState := ⟨[sampleGame0], [⟨"game_1", 1, validGameSpec, 10, some "Initial version"⟩]⟩

/-- An updated spec to store over `sampleGame0`. -/
def sampleSpec1 : PhaserGameSpec :=
  { validGameSpec with title := "Dodger II", description := "Now with lasers" }

/-- Whether a sink event is the `chat-complete` marker. -/
def isChatComplete : SinkEvent → Bool
  | SinkEvent.chatComplete => true
  | _ => false

/-- Whether a sink event is a `chat-final-response` event. -/
def isFinalResponseEvent : SinkEvent → Bool
  | SinkEvent.chatFinalResponse _ => true
  | _ => false

/-- A message log exercising last-writer-wins: the user message `"c"` is
overwritten by `"d"` before the second assistant reply, and `"f"` stays
pending. -/
def msgsLww : List ChatMessage :=
  [⟨"1", "user", "a"⟩, ⟨"2", "assistant", "b"⟩, ⟨"3", "user", "c"⟩,
   ⟨"4", "user", "d"⟩, ⟨"5", "assistant", "e"⟩, ⟨"6", "user", "f"⟩]

/-- A captured raw provider stream: a text fragment, a tool call, the tool's
result, and a final response. -/
def sampleRawStream : List (Except String MultiTurnStreamItem) :=
  [Except.ok (MultiTurnStreamItem.streamAssistantItem (StreamedAssistantContent.text "Sure!")),
   Except.ok (MultiTurnStreamItem.streamAssistantItem
     (StreamedAssistantContent.toolCall "generate_phaser_game" "\x7b\"title\":\"Dodger\"\x7d")),
   Except.ok (MultiTurnStreamItem.streamUserItem (StreamedUserContent.toolResult "ok")),
   Except.ok (MultiTurnStreamItem.finalResponse "Here is your game.")]

/- ===========================  helper lemmas  =========================== -/

theorem flattenPairs_append (l₁ l₂ : List (String × String)) :
    flattenPairs (l₁ ++ l₂) = flattenPairs l₁ ++ flattenPairs l₂ := by
  induction l₁ with
  | nil => rfl
  | cons p l ih => cases p; simp [flattenPairs, ih]


theorem buildHistoryFrom_sys (msgs : List ChatMessage) :
    ∀ (st hs : HistState), buildHistoryFrom st msgs = Except.ok hs →
    hs.systemPrompt
      = st.systemPrompt ++ joinAll ((systemContents msgs).map (fun s => "\n" ++ s)) := by
  induction msgs with
  | nil =>
    intro st hs h
    simp only [buildHistoryFrom, Except.ok.injEq] at h
    subst h
    simp [systemContents, joinAll, String.append_empty]
  | cons m rest ih =>
    intro st hs h
    by_cases h1 : m.role = "system"
    · simp only [buildHistoryFrom, buildStep, h1] at h
      simp at h
      have hsys := ih _ hs h
      simp only [systemContents, h1]
      simp only [beq_self_eq_true, if_true, List.map_cons, joinAll]
      rw [hsys]
      simp [String.append_assoc]
    · by_cases h2 : m.role = "user"
      · simp only [buildHistoryFrom, buildStep, h2] at h
        simp at h
        have hsys := ih _ hs h
        simp only [systemContents, h2]
        simp
        exact hsys
      · by_cases h3 : m.role = "assistant"
        · simp only [buildHistoryFrom, buildStep, h3] at h
          simp at h
          by_cases h4 : st.lastUser = ""
          · simp only [h4] at h
            simp at h
            have hsys := ih _ hs h
            simp only [systemContents, h3]
            simp
            exact hsys
          · rw [if_neg (by simpa using h4)] at h
            have hsys := ih _ hs h
            simp only [systemContents, h3]
            simp
            exact hsys
        · simp only [buildHistoryFrom, buildStep] at h
          rw [if_neg (by simpa using h1), if_neg (by simpa using h2),
              if_neg (by simpa using h3)] at h
          cases h

theorem buildHistoryFrom_spec_go (msgs : List ChatMessage) :
    ∀ (sys : String) (pairs : List (String × String)) (pending : Option String),
    rolesOk msgs = true → usersNonempty msgs = true → orderOk pending msgs = true →
    (∀ u, pending = some u → u ≠ "") →
    buildHistoryFrom ⟨sys, flattenPairs pairs, pendingStr pending⟩ msgs =
      Except.ok ⟨sys ++ joinAll ((systemContents msgs).map (fun s => "\n" ++ s)),
                 flattenPairs (specScanFrom (pairs, pending) msgs).1,
                 pendingStr (specScanFrom (pairs, pending) msgs).2⟩ := by
  induction msgs with
  | nil =>
    intro sys pairs pending _ _ _ _
    simp [buildHistoryFrom, specScanFrom, systemContents, joinAll, String.append_empty]
  | cons m rest ih =>
    intro sys pairs pending hroles husers horder hpend
    simp only [rolesOk, Bool.and_eq_true] at hroles
    obtain ⟨hrole, hroles'⟩ := hroles
    simp only [usersNonempty, Bool.and_eq_true] at husers
    obtain ⟨huser, husers'⟩ := husers
    by_cases h1 : m.role = "system"
    · simp only [buildHistoryFrom, buildStep, specScanFrom, orderOk, systemContents, h1] at horder ⊢
      simp at horder ⊢
      rw [ih (sys ++ "\n" ++ m.content) pairs pending hroles' husers' horder hpend]
      simp [joinAll, String.append_assoc]
    · by_cases h2 : m.role = "user"
      · simp only [buildHistoryFrom, buildStep, specScanFrom, orderOk, systemContents, h2]
          at horder huser ⊢
        simp at horder huser ⊢
        have hne : m.content ≠ "" := huser
        have hpend' : ∀ u, some m.content = some u → u ≠ "" := by
          intro u hu
          injection hu with hu
          subst hu
          exact hne
        have := ih sys pairs (some m.content) hroles' husers' horder hpend'
        simpa [pendingStr] using this
      · by_cases h3 : m.role = "assistant"
        · simp only [buildHistoryFrom, buildStep, specScanFrom, orderOk, systemContents, h3]
            at horder ⊢
          simp at horder ⊢
          obtain ⟨hsome, horder'⟩ := horder
          cases pending with
          | none => simp at hsome
          | some u =>
            have hu : u ≠ "" := hpend u rfl
            simp only [pendingStr, Option.getD]
            rw [if_neg (by simpa using hu)]
            have hflat : flattenPairs pairs ++
                [RigMessage.user u, RigMessage.assistant m.content]
                = flattenPairs (pairs ++ [(u, m.content)]) := by
              rw [flattenPairs_append]
              rfl
            rw [hflat]
            have := ih sys (pairs ++ [(u, m.content)]) none hroles' husers' horder'
              (fun v hv => nomatch hv)
            simpa [pendingStr] using this
        · simp [beq_iff_eq, h1, h2, h3] at hrole

theorem processOkItems_fst_append (l₁ l₂ : List MultiTurnStreamItem) :
    ∀ st : LoopState,
    (processOkItems st (l₁ ++ l₂)).1 = (processOkItems (processOkItems st l₁).1 l₂).1 := by
  induction l₁ with
  | nil => intro st; rfl
  | cons it l ih => intro st; simp [processOkItems, ih]

theorem processOkItems_accumulated (l : List MultiTurnStreamItem) :
    ∀ st : LoopState,
    (processOkItems st l).1.accumulated = st.accumulated ++ joinAll (textDeltas l) := by
  induction l with
  | nil => intro st; simp [processOkItems, textDeltas, joinAll, String.append_empty]
  | cons it l ih =>
    intro st
    cases it with
    | streamAssistantItem a =>
      cases a with
      | text t =>
        simp [processOkItems, processItem, textDeltas, joinAll, ih, String.append_assoc]
      | toolCall n ar => simp [processOkItems, processItem, textDeltas, ih]
      | otherAssistant => simp [processOkItems, processItem, textDeltas, ih]
    | streamUserItem u =>
      cases u with
      | toolResult c => simp [processOkItems, processItem, textDeltas, ih]
    | finalResponse r => simp [processOkItems, processItem, textDeltas, ih]
    | otherItem => simp [processOkItems, processItem, textDeltas, ih]

theorem depthTrace_spec (script : List ProviderTurn) :
    ∀ d : Nat, (depthTrace d script).length ≤ d
    ∧ depthTrace d script = (List.range (depthTrace d script).length).map (fun i => d - i) := by
  induction script with
  | nil => intro d; simp [depthTrace]
  | cons turn rest ih =>
    intro d
    cases turn with
    | finalText t => simp [depthTrace]
    | toolCall n a =>
      by_cases hd : d = 0
      · simp [depthTrace, hd]
      · obtain ⟨ihlen, iheq⟩ := ih (d - 1)
        constructor
        · simp only [depthTrace, if_neg hd, List.length_cons]
          omega
        · simp only [depthTrace, if_neg hd, List.length_cons]
          rw [List.range_succ_eq_map, List.map_cons, List.map_map]
          have hfun : ((fun i => d - i) ∘ Nat.succ) = (fun i => d - 1 - i) := by
            funext i
            simp [Nat.succ_eq_add_one]
            omega
          rw [hfun, ← iheq, Nat.sub_zero]

theorem find?_map_updateRow (spec : PhaserGameSpec) (now : Nat) (v : Int) (id : String)
    (l : List GameRecord) :
    ∀ r : GameRecord, l.find? (fun x => x.id == id) = some r →
    (l.map (Database.updateRow spec now v id)).find? (fun x => x.id == id)
      = some (Database.updateRow spec now v id r) := by
  induction l with
  | nil => intro r h; cases h
  | cons a l ih =>
    intro r h
    cases hb : (a.id == id) with
    | true =>
      simp only [List.find?, hb] at h
      injection h with h
      subst h
      have hid : (Database.updateRow spec now v id a).id = a.id := by
        simp [Database.updateRow, hb]
      simp only [List.map_cons, List.find?, hid, hb]
    | false =>
      simp only [List.find?, hb] at h
      have hone : Database.updateRow spec now v id a = a := by
        simp [Database.updateRow, hb]
      simp only [List.map_cons, hone, List.find?, hb]
      exact ih r h

theorem buildHistoryFrom_total (msgs : List ChatMessage) :
    ∀ st : HistState, rolesOk msgs = true →
    ∃ hs, buildHistoryFrom st msgs = Except.ok hs := by
  induction msgs with
  | nil => intro st _; exact ⟨st, rfl⟩
  | cons m rest ih =>
    intro st hroles
    simp only [rolesOk, Bool.and_eq_true] at hroles
    obtain ⟨hrole, hroles'⟩ := hroles
    by_cases h1 : m.role = "system"
    · simp only [buildHistoryFrom, buildStep, h1]
      simp
      exact ih _ hroles'
    · by_cases h2 : m.role = "user"
      · simp only [buildHistoryFrom, buildStep, h2]
        simp
        exact ih _ hroles'
      · by_cases h3 : m.role = "assistant"
        · simp only [buildHistoryFrom, buildStep, h3]
          simp
          by_cases h4 : st.lastUser = ""
          · rw [if_pos (by simpa using h4)]
            exact ih _ hroles'
          · rw [if_neg (by simpa using h4)]
            exact ih _ hroles'
        · simp [beq_iff_eq, h1, h2, h3] at hrole

/- ===========================  claim theorems  =========================== -/

/-- C9: with no initialized AI client, `stream_chat` fails immediately with
the `init_ai` error, before history assembly, any provider interaction, or
any sink event — the returned event list is empty for every message log,
model choice and would-be provider stream. -/
theorem uninitialized_client_fails_fast (messages : List ChatMessage)
    (model : Option String) (stream : List (Except String MultiTurnStreamItem)) :
    stream_chat none messages model stream
      = ([], Except.error "AI client not initialized. Call init_ai first.") := rfl

/-- C8: replaying the same captured raw provider stream through the
normalizing/accumulating loop twice yields identical ordered sink event
sequences and identical final accumulator states — the pipeline is a
deterministic function of the input stream alone (two-run equality). -/
theorem replay_deterministic (s₁ s₂ : List (Except String MultiTurnStreamItem))
    (h : s₁ = s₂) :
    (processStream ⟨"", false⟩ s₁).2.1 = (processStream ⟨"", false⟩ s₂).2.1
    ∧ (processStream ⟨"", false⟩ s₁).1 = (processStream ⟨"", false⟩ s₂).1 := by
  subst h
  exact ⟨rfl, rfl⟩

/-- Witness for C8: two replays of the concrete captured stream
`sampleRawStream` agree. -/
theorem replay_deterministic_witness :
    (processStream ⟨"", false⟩ sampleRawStream).2.1
      = (processStream ⟨"", false⟩ sampleRawStream).2.1
    ∧ (processStream ⟨"", false⟩ sampleRawStream).1
      = (processStream ⟨"", false⟩ sampleRawStream).1 :=
  replay_deterministic sampleRawStream sampleRawStream rfl

/-- C1 counterexample: the claim says a mid-run provider error after one
`TextDelta` leaves the subscriber with `token, error, complete`. On the
code, the run emits `chat-token` and `chat-error` and then returns `Err`
immediately — `chat-complete` is never emitted after an error. -/
theorem c1_stream_error_counterexample :
    stream_chat (some ()) [⟨"1", "user", "hi"⟩] none
        [Except.ok (MultiTurnStreamItem.streamAssistantItem (StreamedAssistantContent.text "Sure")),
         Except.error "boom"]
      = ([SinkEvent.chatToken "Sure", SinkEvent.chatError "Stream error: boom"],
         Except.error "Stream error: boom")
    ∧ SinkEvent.chatComplete
        ∉ [SinkEvent.chatToken "Sure", SinkEvent.chatError "Stream error: boom"] := by
  refine ⟨rfl, ?_⟩
  decide

/-- C1 (corrected): when the provider stream yields an error after one
`TextDelta`, the Sink receives exactly `token(...)` then `error(...)`, the
command returns the error, and neither a `complete` marker nor a
`final-response` is delivered (the source returns `Err` before reaching the
`chat-complete` emission). -/
theorem stream_error_no_complete (msgs : List ChatMessage) (hs : HistState) (t e : String)
    (h : buildHistory msgs = Except.ok hs) :
    stream_chat (some ()) msgs none
        [Except.ok (MultiTurnStreamItem.streamAssistantItem (StreamedAssistantContent.text t)),
         Except.error e]
      = ([SinkEvent.chatToken t, SinkEvent.chatError ("Stream error: " ++ e)],
         Except.error ("Stream error: " ++ e))
    ∧ List.filter isChatComplete
        [SinkEvent.chatToken t, SinkEvent.chatError ("Stream error: " ++ e)] = []
    ∧ List.filter isFinalResponseEvent
        [SinkEvent.chatToken t, SinkEvent.chatError ("Stream error: " ++ e)] = [] := by
  refine ⟨?_, rfl, rfl⟩
  simp [stream_chat, h, processStream, processItem]

/-- Witness for C1's corrected statement at a concrete log and stream. -/
theorem stream_error_no_complete_witness :
    stream_chat (some ()) [⟨"1", "user", "hi"⟩] none
        [Except.ok (MultiTurnStreamItem.streamAssistantItem (StreamedAssistantContent.text "Sure")),
         Except.error "boom"]
      = ([SinkEvent.chatToken "Sure", SinkEvent.chatError ("Stream error: " ++ "boom")],
         Except.error ("Stream error: " ++ "boom"))
    ∧ List.filter isChatComplete
        [SinkEvent.chatToken "Sure", SinkEvent.chatError ("Stream error: " ++ "boom")] = []
    ∧ List.filter isFinalResponseEvent
        [SinkEvent.chatToken "Sure", SinkEvent.chatError ("Stream error: " ++ "boom")] = [] :=
  stream_error_no_complete [⟨"1", "user", "hi"⟩] ⟨get_system_prompt, [], "hi"⟩ "Sure" "boom" rfl

/-- C2 counterexample: for the log `[{assistant, "hi"}]` the claim says the
run fails with an input-ordering error and the Sink receives no events. On
the code, history assembly succeeds (the assistant message is appended
unpaired), the run starts, and the Sink receives `chat-complete`. -/
theorem c2_assistant_only_counterexample :
    buildHistory [⟨"1", "assistant", "hi"⟩]
      = Except.ok ⟨get_system_prompt, [RigMessage.assistant "hi"], ""⟩
    ∧ stream_chat (some ()) [⟨"1", "assistant", "hi"⟩] none []
      = ([SinkEvent.chatComplete], Except.ok ()) :=
  ⟨rfl, rfl⟩

/-- C2 (corrected): an assistant-role message with no pending user message
is not an input-ordering error. For every message log whose roles are all
known — in particular any log containing assistant messages with no pending
(unconsumed) preceding user message — history assembly succeeds, the run
starts and proceeds to the streaming loop, and the Sink receives the loop's
events as usual; moreover at any builder state whose pending slot is empty,
an assistant message is appended to the history unpaired. -/
theorem assistant_without_user_accepted (msgs : List ChatMessage)
    (stream : List (Except String MultiTurnStreamItem)) (st : HistState) (i c : String)
    (hroles : rolesOk msgs = true) (hpend : st.lastUser = "") :
    (buildHistory msgs).isOk = true
    ∧ stream_chat (some ()) msgs none stream
      = ((processStream ⟨"", false⟩ stream).2.1, (processStream ⟨"", false⟩ stream).2.2)
    ∧ buildStep st ⟨i, "assistant", c⟩
      = Except.ok { st with history := st.history ++ [RigMessage.assistant c] } := by
  obtain ⟨hs, hhs⟩ := buildHistoryFrom_total msgs ⟨get_system_prompt, [], ""⟩ hroles
  have hok : buildHistory msgs = Except.ok hs := hhs
  refine ⟨?_, ?_, ?_⟩
  · rw [hok]
    rfl
  · simp only [stream_chat, hok]
  · simp [buildStep, hpend]

/-- Witness for C2's corrected statement on a log with a paired assistant
followed by an orphan assistant message, and on a concrete no-pending
builder state. -/
theorem assistant_without_user_accepted_witness :
    (buildHistory [⟨"1", "user", "a"⟩, ⟨"2", "assistant", "b"⟩,
        ⟨"3", "assistant", "c"⟩]).isOk = true
    ∧ stream_chat (some ())
        [⟨"1", "user", "a"⟩, ⟨"2", "assistant", "b"⟩, ⟨"3", "assistant", "c"⟩] none []
      = ((processStream ⟨"", false⟩ []).2.1, (processStream ⟨"", false⟩ []).2.2)
    ∧ buildStep ⟨get_system_prompt, [], ""⟩ ⟨"9", "assistant", "hi"⟩
      = Except.ok ⟨get_system_prompt, [RigMessage.assistant "hi"], ""⟩ :=
  assistant_without_user_accepted
    [⟨"1", "user", "a"⟩, ⟨"2", "assistant", "b"⟩, ⟨"3", "assistant", "c"⟩] []
    ⟨get_system_prompt, [], ""⟩ "9" "hi" rfl rfl

/-- C3 counterexample: right after the `ToolResult`/`TurnBoundary` event the
claim requires the accumulated-text buffer to be empty; on the code the
buffer still holds the previous turn's text `"a"` (only the `has_text` flag
was reset). -/
theorem c3_buffer_counterexample :
    (processOkItems ⟨"", false⟩
        [MultiTurnStreamItem.streamAssistantItem (StreamedAssistantContent.text "a"),
         MultiTurnStreamItem.streamUserItem (StreamedUserContent.toolResult "r")]).1
      = ⟨"a", false⟩
    ∧ ("a" : String) ≠ "" := by
  refine ⟨rfl, ?_⟩
  decide

/-- C3 (corrected): on every `ToolResult`/`TurnBoundary` event only the
`has_text` flag is reset to `false`; `accumulated_response` is never reset
and always holds the concatenation of all text deltas of the whole run so
far, across turn boundaries. -/
theorem turn_boundary_resets_flag_only (items : List MultiTurnStreamItem) (c : String) :
    (processOkItems ⟨"", false⟩
        (items ++ [MultiTurnStreamItem.streamUserItem (StreamedUserContent.toolResult c)])).1.hasText
      = false
    ∧ (processOkItems ⟨"", false⟩
        (items ++ [MultiTurnStreamItem.streamUserItem (StreamedUserContent.toolResult c)])).1.accumulated
      = joinAll (textDeltas items) := by
  constructor
  · rw [processOkItems_fst_append]
    rfl
  · rw [processOkItems_fst_append]
    show (processOkItems ⟨"", false⟩ items).1.accumulated = joinAll (textDeltas items)
    rw [processOkItems_accumulated]
    exact String.empty_append _

/-- C4 counterexample: the log `[{user, ""}, {assistant, "x"}]` satisfies the
spec's validity invariant (the assistant has a preceding unconsumed user
message), yet the code leaves the assistant unpaired, because the builder
uses the empty string as its "no pending user" sentinel — the code's
history differs from the spec-side pairing. -/
theorem c4_empty_user_counterexample :
    buildHistory [⟨"1", "user", ""⟩, ⟨"2", "assistant", "x"⟩]
      = Except.ok ⟨get_system_prompt, [RigMessage.assistant "x"], ""⟩
    ∧ orderOk none [⟨"1", "user", ""⟩, ⟨"2", "assistant", "x"⟩] = true
    ∧ flattenPairs (specScan [⟨"1", "user", ""⟩, ⟨"2", "assistant", "x"⟩]).1
      = [RigMessage.user "", RigMessage.assistant "x"]
    ∧ ([RigMessage.assistant "x"] : List RigMessage)
      ≠ [RigMessage.user "", RigMessage.assistant "x"] := by
  refine ⟨rfl, rfl, rfl, ?_⟩
  decide

/-- C4 (corrected): for every valid message log in which every user message
has non-empty content, the History Builder matches the spec-side reference
`specScan` exactly: the history is the flattening of the `(user, assistant)`
pairs in which each assistant message is paired with the chronologically
nearest preceding unconsumed user message (a later user message having
overwritten any unconsumed earlier one — last-writer-wins through the single
pending slot), and the pending slot holds the at-most-one remaining unpaired
user content. -/
theorem history_builder_pairing (msgs : List ChatMessage)
    (hroles : rolesOk msgs = true) (husers : usersNonempty msgs = true)
    (horder : orderOk none msgs = true) :
    buildHistory msgs
      = Except.ok ⟨specPreamble msgs, flattenPairs (specScan msgs).1,
                   pendingStr (specScan msgs).2⟩ := by
  have h := buildHistoryFrom_spec_go msgs get_system_prompt [] none hroles husers horder
    (fun u hu => nomatch hu)
  simpa [buildHistory, specPreamble, specScan, flattenPairs, pendingStr] using h

/-- Witness for C4's corrected statement on a log exercising
last-writer-wins and a trailing pending user. -/
theorem history_builder_pairing_witness :
    rolesOk msgsLww = true ∧ usersNonempty msgsLww = true ∧ orderOk none msgsLww = true
    ∧ buildHistory msgsLww
      = Except.ok ⟨specPreamble msgsLww, flattenPairs (specScan msgsLww).1,
                   pendingStr (specScan msgsLww).2⟩ :=
  ⟨rfl, rfl, rfl, history_builder_pairing msgsLww rfl rfl rfl⟩

/-- C5: `PhaserGameTool::call` rejects a spec whose scene list is empty,
rejects a spec whose width or height is 0 (in particular width = 0), and on
any other spec succeeds with the spec serialized as JSON. -/
theorem phaser_tool_validation (args : PhaserGameSpec) :
    (args.scenes.isEmpty = true →
      PhaserGameTool.call args
        = Except.error (GameBuilderError.invalidConfiguration "Game must have at least one scene"))
    ∧ (args.scenes.isEmpty = false → args.game.width = 0 ∨ args.game.height = 0 →
      PhaserGameTool.call args
        = Except.error (GameBuilderError.invalidConfiguration "Game dimensions must be greater than 0"))
    ∧ (args.scenes.isEmpty = false → args.game.width ≠ 0 → args.game.height ≠ 0 →
      PhaserGameTool.call args = Except.ok (specToJson args)) := by
  refine ⟨fun h => ?_, fun h hd => ?_, fun h hw hh => ?_⟩
  · simp [PhaserGameTool.call, h]
  · rcases hd with hd | hd <;> simp [PhaserGameTool.call, h, hd]
  · simp [PhaserGameTool.call, h, beq_eq_false_iff_ne.mpr hw, beq_eq_false_iff_ne.mpr hh]

/-- Witness for C5: the concrete valid 800×600 spec is accepted and
serialized; the same spec with width 0 (Scenario D) is rejected. -/
theorem phaser_tool_validation_witness :
    PhaserGameTool.call validGameSpec = Except.ok (specToJson validGameSpec)
    ∧ PhaserGameTool.call width0GameSpec
      = Except.error (GameBuilderError.invalidConfiguration "Game dimensions must be greater than 0") :=
  ⟨(phaser_tool_validation validGameSpec).2.2 rfl (by decide) (by decide),
   (phaser_tool_validation width0GameSpec).2.1 rfl (Or.inl rfl)⟩

/-- C6: for every run whose history assembly succeeds, the provider call is
opened in prompt mode (only the pending user content) iff the assembled
history is empty, in chat mode (pending user content plus the non-empty
history) otherwise, and in both cases the preamble is the fixed base system
prompt followed by every system-role content, newline-joined. -/
theorem initial_call_mode_spec (msgs : List ChatMessage) (hs : HistState)
    (h : buildHistory msgs = Except.ok hs) :
    ((initialCallMode hs = CallMode.prompt hs.lastUser) ↔ hs.history = [])
    ∧ (hs.history ≠ [] → initialCallMode hs = CallMode.chat hs.lastUser hs.history)
    ∧ hs.systemPrompt = specPreamble msgs := by
  refine ⟨?_, ?_, ?_⟩
  · cases hh : hs.history with
    | nil => simp [initialCallMode, hh]
    | cons a l => simp [initialCallMode, hh]
  · intro hne
    cases hh : hs.history with
    | nil => exact absurd hh hne
    | cons a l => simp [initialCallMode, hh]
  · exact buildHistoryFrom_sys msgs ⟨get_system_prompt, [], ""⟩ hs h

/-- Witness for C6 at the concrete log `[{system, "S"}, {user, "hi"}]`,
which assembles to an empty history (prompt mode). -/
theorem initial_call_mode_spec_witness :
    ((initialCallMode ⟨get_system_prompt ++ "\n" ++ "S", [], "hi"⟩ = CallMode.prompt "hi")
      ↔ ([] : List RigMessage) = [])
    ∧ (([] : List RigMessage) ≠ [] →
        initialCallMode ⟨get_system_prompt ++ "\n" ++ "S", [], "hi"⟩ = CallMode.chat "hi" [])
    ∧ get_system_prompt ++ "\n" ++ "S"
        = specPreamble [⟨"1", "system", "S"⟩, ⟨"2", "user", "hi"⟩] :=
  initial_call_mode_spec [⟨"1", "system", "S"⟩, ⟨"2", "user", "hi"⟩]
    ⟨get_system_prompt ++ "\n" ++ "S", [], "hi"⟩ rfl

/-- C7: in the spec-modelled multi-turn loop started with the source's
depth constant 5 (`.multi_turn(5)`), at most 5 tool executions are performed,
and the value of `depth_remaining` at the i-th execution is `5 - i` — it
strictly decreases by exactly 1 per tool execution from its initial value. -/
theorem depth_loop_bounded (script : List ProviderTurn) :
    (depthTrace multiTurnMaxDepth script).length ≤ multiTurnMaxDepth
    ∧ depthTrace multiTurnMaxDepth script
      = (List.range (depthTrace multiTurnMaxDepth script).length).map
          (fun i => multiTurnMaxDepth - i) :=
  depthTrace_spec script multiTurnMaxDepth

/-- C10: a successful `update_game` on an existing record returns — and
stores, so that a subsequent `get_game` sees the identical record — a record
whose version is exactly the previous version plus 1, whose `created_at` is
the original record's, whose title, description and spec come from the new
spec, and whose `updated_at` is the fresh timestamp. -/
theorem update_game_versioning (db : DbState) (id : String) (spec : PhaserGameSpec)
    (notes : Option String) (now : Nat) (current : GameRecord)
    (h : Database.get_game db id = Except.ok current) :
    Database.update_game db id spec notes now
      = Except.ok
          (⟨db.games.map (Database.updateRow spec now (current.version + 1) id),
            db.versions ++ [⟨id, current.version + 1, spec, now, notes⟩]⟩,
           ⟨id, spec.title, spec.description, spec, current.created_at, now,
            current.version + 1⟩)
    ∧ Database.get_game
        ⟨db.games.map (Database.updateRow spec now (current.version + 1) id),
         db.versions ++ [⟨id, current.version + 1, spec, now, notes⟩]⟩ id
      = Except.ok ⟨id, spec.title, spec.description, spec, current.created_at, now,
                   current.version + 1⟩ := by
  have hfind : db.games.find? (fun x => x.id == id) = some current := by
    unfold Database.get_game at h
    cases hf : db.games.find? (fun x => x.id == id) with
    | none => rw [hf] at h; cases h
    | some r =>
      rw [hf] at h
      injection h with h2
      rw [h2]
  have hid : current.id = id := by
    have := List.find?_some hfind
    simpa using this
  constructor
  · unfold Database.update_game
    rw [h]
  · have hfind' := find?_map_updateRow spec now (current.version + 1) id db.games current hfind
    unfold Database.get_game
    rw [show (⟨db.games.map (Database.updateRow spec now (current.version + 1) id),
         db.versions ++ [⟨id, current.version + 1, spec, now, notes⟩]⟩ : DbState).games
       = db.games.map (Database.updateRow spec now (current.version + 1) id) from rfl]
    rw [hfind']
    have hb : (current.id == id) = true := by simp [hid]
    simp [Database.updateRow, hb, hid]

/-- Witness for C10 on a one-game database at version 3. -/
theorem update_game_versioning_witness :
    Database.update_game sampleDb "game_1" sampleSpec1 none 42
      = Except.ok
          (⟨sampleDb.games.map
              (Database.updateRow sampleSpec1 42 (sampleGame0.version + 1) "game_1"),
            sampleDb.versions ++ [⟨"game_1", sampleGame0.version + 1, sampleSpec1, 42, none⟩]⟩,
           ⟨"game_1", sampleSpec1.title, sampleSpec1.description, sampleSpec1,
            sampleGame0.created_at, 42, sampleGame0.version + 1⟩) :=
  (update_game_versioning sampleDb "game_1" sampleSpec1 none 42 sampleGame0 rfl).1
